import Mathlib

/-!
Shallow embedding of the terminal/process session manager in
`src/src-tauri/src/lib.rs` (the `cfg(unix)` configuration, which is the
one the specification describes).

Modelling conventions:
* The Tauri managed state `AppState { terminals: Arc<Mutex<HashMap<..>>> }`
  becomes an explicit association list `Terminals` threaded through each
  operation; `HashMap` lookup/insert/remove become `lookupSession`,
  `insertSession` / `setSession`, `eraseSession`.
* Results `Result<T, String>` become `Except String T`; where the source
  interpolates an OS error into the message, the OS error text is a
  parameter.
* External effects whose outcome the code inspects (spawning a child,
  `try_wait`, writing to stdin) are parameters of the operation;
  fire-and-forget effects (`libc::kill`, `thread::sleep`, `taskkill`,
  killing by port) are recorded in an emitted `Event` trace in source
  order, since the source discards their results.
* `u32` process ids are `Nat` (values `< 2^32` in practice); the source's
  `pid as i32` and `code as u32` casts are modelled by the wrapping
  conversions `i32_of_u32` and `u32_of_i32`.
-/

/-- A signal sent with `libc::kill` in the source: `SIGTERM` or `SIGKILL`. -/
inductive Sig where
  | term
  | kill
deriving DecidableEq

/-- One observable side effect of a session operation, in source order.
`signal t s` is `libc::kill(t, s)` (a negative target signals the process
group, as in the source); `sleepMs` is `std::thread::sleep`; `childKill`
is `process.kill().await` on the tracked child handle; `removed id` marks
the point where `terminals.remove(&session_id)` took the entry out of the
registry; `killPort p` marks an invocation of `kill_port_process(p)`. -/
inductive Event where
  | signal (target : Int) (sig : Sig)
  | sleepMs (ms : Nat)
  | childKill
  | removed (id : String)
  | killPort (port : Nat)
deriving DecidableEq

/-- `pid as i32` on a `u32` value: two's-complement reinterpretation. -/
def i32_of_u32 (p : Nat) : Int :=
  if p < 2147483648 then (p : Int) else (p : Int) - 4294967296

/-- `code as u32` on an `i32` value: two's-complement reinterpretation. -/
def u32_of_i32 (c : Int) : Nat :=
  (c % 4294967296).toNat

/-- Rust `{:?}` (Debug) formatting of `Option<i32>`, used for the exit
code in the `__PROCESS_EXITED__` sentinel. -/
def fmtOptCode : Option Int → String
  | some c => "Some(" ++ toString c ++ ")"
  | none => "None"

/-- The public `TerminalSession` record (lib.rs lines 19-24). -/
structure TerminalSession where
  id : String
  name : String
  working_directory : String
deriving DecidableEq

/-- The observable parts of the `tokio::process::Child` handle stored in
`current_process`: `pid` is what `process.id()` returns, `stdin_open`
says whether `process.stdin.as_mut()` is `Some`. -/
structure ChildProcess where
  pid : Option Nat
  stdin_open : Bool
deriving DecidableEq

/-- `TerminalSessionData` (lib.rs lines 36-44). The `Arc<Mutex<..>>`
wrappers around the child handle and the output buffer are modelled away:
state is passed explicitly. -/
structure TerminalSessionData where
  session : TerminalSession
  running_processes : List Nat
  process_group_id : Option Int
  current_process : Option ChildProcess
  output_buffer : String
  is_interactive : Bool
deriving DecidableEq

/-- The registry map `HashMap<String, TerminalSessionData>` as an
association list with unique keys. -/
abbrev Terminals := List (String × TerminalSessionData)

/-- `terminals.get(&id)` / `get_mut(&id)`: first entry with the key. -/
def lookupSession : Terminals → String → Option TerminalSessionData
  | [], _ => none
  | p :: rest, id => if p.1 = id then some p.2 else lookupSession rest id

/-- `terminals.insert(id, sd)`: replaces any existing entry for the key. -/
def insertSession (ts : Terminals) (id : String) (sd : TerminalSessionData) :
    Terminals :=
  (id, sd) :: ts.filter (fun p => decide (p.1 ≠ id))

/-- Writing back through `terminals.get_mut(&id)`: replace the value
stored at the key, keeping the map shape. -/
def setSession (ts : Terminals) (id : String) (sd : TerminalSessionData) :
    Terminals :=
  ts.map (fun p => if p.1 = id then (p.1, sd) else p)

/-- The map left behind by `terminals.remove(&id)`. -/
def eraseSession (ts : Terminals) (id : String) : Terminals :=
  ts.filter (fun p => decide (p.1 ≠ id))

/-- `terminals.remove(&id)`: the removed value (if any) and the rest. -/
def removeSession (ts : Terminals) (id : String) :
    Option TerminalSessionData × Terminals :=
  (lookupSession ts id, eraseSession ts id)

/-- `create_terminal_session` (lib.rs lines 58-85). The freshly generated
`Uuid::new_v4()` string is the `session_id` parameter. The function
builds the session record and an initial `TerminalSessionData` with no
process, empty history, empty buffer, and stores it; it has no failing
path — nothing is spawned at creation time. -/
def create_terminal_session (session_id working_directory : String)
    (terminals : Terminals) : Except String TerminalSession × Terminals :=
  let session : TerminalSession :=
    { id := session_id, name := "Terminal", working_directory := working_directory }
  let session_data : TerminalSessionData :=
    { session := session
      running_processes := []
      process_group_id := none
      current_process := none
      output_buffer := ""
      is_interactive := false }
  (Except.ok session, insertSession terminals session_id session_data)

/-- `send_input_to_process` (lib.rs lines 88-114). `writeErr` / `flushErr`
are the outcomes of `stdin.write_all` and `stdin.flush` (`none` =
success, `some e` = the OS error text). The second component is the data
handed to `write_all`: `some (input ++ "\n")` exactly when the write was
attempted (session found, process attached, stdin open). -/
def send_input_to_process (session_id input : String)
    (writeErr flushErr : Option String) (terminals : Terminals) :
    Except String Unit × Option String :=
  match lookupSession terminals session_id with
  | some session_data =>
    match session_data.current_process with
    | some proc =>
      if proc.stdin_open then
        match writeErr with
        | some e => (Except.error ("Failed to send input: " ++ e), some (input ++ "\n"))
        | none =>
          match flushErr with
          | some e => (Except.error ("Failed to flush input: " ++ e), some (input ++ "\n"))
          | none => (Except.ok (), some (input ++ "\n"))
      else
        (Except.error "No active process to send input to", none)
    | none => (Except.error "No active process to send input to", none)
  | none => (Except.error "Terminal session not found", none)

/-- `get_process_output` (lib.rs lines 117-162). `tryWait` is the outcome
of `process.try_wait()`: `Except.ok (some code)` = process exited with
`exit_status.code() = code`, `Except.ok none` = still running,
`Except.error e` = the status check failed (the source ignores `e`).
Returns the command result together with the registry as left behind
(only the session's output buffer is ever mutated). -/
def get_process_output (session_id : String)
    (tryWait : Except String (Option (Option Int))) (terminals : Terminals) :
    Except String String × Terminals :=
  match lookupSession terminals session_id with
  | some session_data =>
    match session_data.current_process with
    | some _ =>
      match tryWait with
      | Except.ok (some code) =>
        let output := session_data.output_buffer
        let terminals2 :=
          setSession terminals session_id { session_data with output_buffer := "" }
        if output ≠ "" then
          (Except.ok (output ++ "\n__PROCESS_EXITED__:" ++ fmtOptCode code), terminals2)
        else
          (Except.ok ("__PROCESS_EXITED__:" ++ fmtOptCode code), terminals2)
      | Except.ok none =>
        if session_data.output_buffer ≠ "" then
          (Except.ok session_data.output_buffer,
           setSession terminals session_id { session_data with output_buffer := "" })
        else
          (Except.ok "", terminals)
      | Except.error _ => (Except.ok "__PROCESS_ERROR__", terminals)
    | none => (Except.ok "__NO_PROCESS__", terminals)
  | none => (Except.error "Terminal session not found", terminals)

/-- The signal sequence `kill_current_process` sends when the attached
child reports a pid (lib.rs lines 177-200 and identically lines 297-319,
366-387): `SIGTERM` to the process group `-(pid as i32)`, a 100 ms grace
sleep, `SIGKILL` to the group, then `process.kill().await` on the single
tracked handle as a backstop. Without a pid only the backstop runs. -/
def currentProcessKillEvents (proc : ChildProcess) : List Event :=
  (match proc.pid with
   | some pid =>
     [Event.signal (-(i32_of_u32 pid)) Sig.term, Event.sleepMs 100,
      Event.signal (-(i32_of_u32 pid)) Sig.kill]
   | none => []) ++ [Event.childKill]

/-- The state left in a session entry by `kill_current_process` (lib.rs
lines 172-211): if a child with a pid is attached, that pid is removed
from `running_processes` (`retain(|&p| p != pid)`); then, in every case,
`current_process` and `process_group_id` are cleared and the output
buffer is emptied. -/
def killCurrentState (sd : TerminalSessionData) : TerminalSessionData :=
  let sd1 :=
    match sd.current_process with
    | some proc =>
      match proc.pid with
      | some pid =>
        { sd with running_processes :=
            sd.running_processes.filter (fun p => decide (p ≠ pid)) }
      | none => sd
    | none => sd
  { sd1 with current_process := none, process_group_id := none, output_buffer := "" }

/-- `kill_current_process` (lib.rs lines 165-217): Ctrl+C equivalent.
Succeeds whenever the session exists, signalling (events) only when a
child is attached; fails with the not-found message otherwise. -/
def kill_current_process (session_id : String) (terminals : Terminals) :
    Except String Unit × Terminals × List Event :=
  match lookupSession terminals session_id with
  | some session_data =>
    (Except.ok (),
     setSession terminals session_id (killCurrentState session_data),
     match session_data.current_process with
     | some proc => currentProcessKillEvents proc
     | none => [])
  | none => (Except.error "Terminal session not found", terminals, [])

/-- The observable outcome of `child.wait_with_output()` (lib.rs line
247): `status_code = output.status.code()`, and the lossily decoded
captured streams. -/
structure CmdOutput where
  status_code : Option Int
  stdout : String
  stderr : String
deriving DecidableEq

deriving instance DecidableEq for Except

/-- The outcome of `cmd.spawn()` (lib.rs line 239): the child's pid
(`child.id()`) and what waiting on it later yields. -/
structure SpawnedChild where
  pid : Nat
  waitResult : Except String CmdOutput
deriving DecidableEq

/-- `execute_terminal_command`, unix path (lib.rs lines 219-263).
`spawnResult` is the outcome of `sh -c <command>` in the session's
working directory. On spawn success the pid is pushed onto
`running_processes` and recorded as `process_group_id` (`pid as i32`);
after the blocking wait, the source's `if let Some(pid) =
output.status.code()` binds the EXIT CODE and retains entries different
from `pid as u32` — i.e. it filters by the exit code, not by the spawned
pid. Returns stdout ++ stderr when stderr is non-empty, else stdout. -/
def execute_terminal_command (session_id command : String)
    (spawnResult : Except String SpawnedChild) (terminals : Terminals) :
    Except String String × Terminals :=
  match lookupSession terminals session_id with
  | some session_data =>
    match spawnResult with
    | Except.error e =>
      (Except.error ("Failed to spawn command: " ++ e), terminals)
    | Except.ok child =>
      let sd1 :=
        { session_data with
            running_processes := session_data.running_processes ++ [child.pid]
            process_group_id := some (i32_of_u32 child.pid) }
      match child.waitResult with
      | Except.error e =>
        (Except.error ("Failed to execute command: " ++ e),
         setSession terminals session_id sd1)
      | Except.ok out =>
        let sd2 :=
          match out.status_code with
          | some code =>
            { sd1 with running_processes :=
                sd1.running_processes.filter (fun p => decide (p ≠ u32_of_i32 code)) }
          | none => sd1
        let terminals2 := setSession terminals session_id sd2
        if out.stderr ≠ "" then
          (Except.ok (out.stdout ++ out.stderr), terminals2)
        else
          (Except.ok out.stdout, terminals2)
  | none => (Except.error "Terminal session not found", terminals)

/-- The full termination sequence run over a removed session's state by
`close_terminal_session` (lib.rs lines 296-342) and, identically, by
`cleanup_all_terminals` (lib.rs lines 365-408): first the attached child
(group signal escalation plus the `process.kill` backstop), then the
recorded process group id, then each individually tracked pid with a
50 ms grace interval. All signal results are discarded. -/
def terminationEvents (sd : TerminalSessionData) : List Event :=
  (match sd.current_process with
   | some proc => currentProcessKillEvents proc
   | none => []) ++
  (match sd.process_group_id with
   | some pgid =>
     [Event.signal (-pgid) Sig.term, Event.sleepMs 100, Event.signal (-pgid) Sig.kill]
   | none => []) ++
  sd.running_processes.flatMap (fun pid =>
    [Event.signal (i32_of_u32 pid) Sig.term, Event.sleepMs 50,
     Event.signal (i32_of_u32 pid) Sig.kill])

/-- `close_terminal_session` (lib.rs lines 288-357): removes the entry
from the registry (the `Event.removed` marker, before any signal is
sent), then runs the termination sequence on the removed state; always
returns `Ok(())`, also when the id was never present. -/
def close_terminal_session (session_id : String) (terminals : Terminals) :
    Except String Unit × Terminals × List Event :=
  match removeSession terminals session_id with
  | (some session_data, rest) =>
    (Except.ok (), rest, Event.removed session_id :: terminationEvents session_data)
  | (none, rest) => (Except.ok (), rest, [])

/-- `kill_port_process`, unix path (lib.rs lines 428-476): `lsofPids` is
the list of pids parsed from `lsof -ti :<port>` (lines that fail to
parse are skipped before this point); each receives `SIGTERM`, a 100 ms
grace sleep, then `SIGKILL`, results discarded. Always `Ok(())`. -/
def kill_port_process (port : Nat) (lsofPids : List Int) :
    Except String Unit × List Event :=
  (Except.ok (),
   lsofPids.flatMap (fun pid =>
     [Event.signal pid Sig.term, Event.sleepMs 100, Event.signal pid Sig.kill]))

/-- The fixed development-port list of `cleanup_dev_ports` (lib.rs line
481). -/
def common_ports : List Nat := [1420, 1421, 1422, 1423, 3000, 5173, 8080]

/-- `cleanup_dev_ports` (lib.rs lines 479-488): invokes the by-port
killer on each well-known port in order (the `Event.killPort` marker),
ignoring its result. `lsof` is the oracle giving the pids found
listening on each port. -/
def cleanup_dev_ports (lsof : Nat → List Int) : Except String Unit × List Event :=
  (Except.ok (),
   common_ports.flatMap (fun port =>
     Event.killPort port :: (kill_port_process port (lsof port)).2))

/-- `cleanup_all_terminals` (lib.rs lines 360-425): drains every entry
from the registry, runs the termination sequence on each drained state
(all signal results discarded, so no failure aborts the sweep), then
calls `cleanup_dev_ports`; always returns `Ok(())` with an empty
registry. -/
def cleanup_all_terminals (terminals : Terminals) (lsof : Nat → List Int) :
    Except String Unit × Terminals × List Event :=
  (Except.ok (), [],
   terminals.flatMap (fun entry => terminationEvents entry.2) ++
     (cleanup_dev_ports lsof).2)

/-- One step of an operation's control flow, annotated with whether the
shared registry lock (`state.terminals.lock().await`) is held at that
step and whether the step is long-running I/O in the spec's sense
(spawning a process, waiting for it to exit, sleeping through a kill
grace interval). -/
structure OpStep where
  descr : String
  holdsRegistryLock : Bool
  longRunning : Bool
deriving DecidableEq

/-- Control flow of `execute_terminal_command` (lib.rs lines 219-263):
the registry lock is taken on line 225 and held until the function
returns, so the spawn (line 239) and the blocking `wait_with_output`
(line 247) both run under it. -/
def execute_terminal_command_steps : List OpStep :=
  [{ descr := "acquire registry lock", holdsRegistryLock := true, longRunning := false },
   { descr := "look up session by id", holdsRegistryLock := true, longRunning := false },
   { descr := "spawn sh -c command in session cwd", holdsRegistryLock := true, longRunning := true },
   { descr := "record pid and process group id", holdsRegistryLock := true, longRunning := false },
   { descr := "wait_with_output: block until the command exits", holdsRegistryLock := true, longRunning := true },
   { descr := "retain running_processes", holdsRegistryLock := true, longRunning := false },
   { descr := "concatenate stdout and stderr", holdsRegistryLock := true, longRunning := false }]

/-- Control flow of `kill_current_process` (lib.rs lines 165-217): the
registry lock is taken on line 170 and held until return, so the 100 ms
grace sleep (line 184) runs under it. -/
def kill_current_process_steps : List OpStep :=
  [{ descr := "acquire registry lock", holdsRegistryLock := true, longRunning := false },
   { descr := "look up session by id", holdsRegistryLock := true, longRunning := false },
   { descr := "SIGTERM the process group", holdsRegistryLock := true, longRunning := false },
   { descr := "sleep 100 ms grace interval", holdsRegistryLock := true, longRunning := true },
   { descr := "SIGKILL the process group", holdsRegistryLock := true, longRunning := false },
   { descr := "kill the tracked child handle", holdsRegistryLock := true, longRunning := false },
   { descr := "clear current process, group id and buffer", holdsRegistryLock := true, longRunning := false }]

/-! ### Registry helper lemmas -/

theorem lookup_insertSession_self (ts : Terminals) (id : String)
    (sd : TerminalSessionData) :
    lookupSession (insertSession ts id sd) id = some sd := by
  simp [insertSession, lookupSession]

theorem lookup_setSession_self (ts : Terminals) (id : String)
    (sd v : TerminalSessionData) (h : lookupSession ts id = some sd) :
    lookupSession (setSession ts id v) id = some v := by
  induction ts with
  | nil => simp [lookupSession] at h
  | cons p tail ih =>
    simp only [setSession, List.map_cons]
    by_cases hk : p.1 = id
    · rw [if_pos hk]
      simp [lookupSession, hk]
    · rw [if_neg hk]
      simp only [lookupSession, if_neg hk] at h ⊢
      exact ih h

theorem setSession_setSession (ts : Terminals) (id : String)
    (v : TerminalSessionData) :
    setSession (setSession ts id v) id v = setSession ts id v := by
  induction ts with
  | nil => rfl
  | cons p tail ih =>
    simp only [setSession, List.map_cons] at ih ⊢
    by_cases hk : p.1 = id
    · rw [if_pos hk, if_pos hk, ih]
    · rw [if_neg hk, if_neg hk, ih]

theorem lookup_eraseSession_self (ts : Terminals) (id : String) :
    lookupSession (eraseSession ts id) id = none := by
  induction ts with
  | nil => rfl
  | cons p tail ih =>
    simp only [eraseSession, List.filter_cons, decide_not] at ih ⊢
    by_cases hk : p.1 = id
    · simp [hk, ih]
    · simp [hk, lookupSession, ih]

/-! ### Concrete sample states used to instantiate the theorems -/

/-- A child handle as stored while an interactive command runs. -/
def sampleChild : ChildProcess := { pid := some 1234, stdin_open := true }

/-- A session with an attached running child, a recorded group id, one
tracked pid and pending buffered output. -/
def sdRunning : TerminalSessionData :=
  { session := { id := "s1", name := "Terminal", working_directory := "/tmp" }
    running_processes := [1234]
    process_group_id := some 1234
    current_process := some sampleChild
    output_buffer := "out"
    is_interactive := true }

/-- A freshly created session: no process, empty history and buffer. -/
def sdFresh : TerminalSessionData :=
  { session := { id := "s1", name := "Terminal", working_directory := "/tmp" }
    running_processes := []
    process_group_id := none
    current_process := none
    output_buffer := ""
    is_interactive := false }

/-- A one-shot `echo hello` finishing with exit code 0, no stderr. -/
def echoChild : SpawnedChild :=
  { pid := 1234
    waitResult := Except.ok { status_code := some 0, stdout := "hello\n", stderr := "" } }

/-! ### Claim theorems -/

/-- C1 counterexample: at the concrete nonexistent working directory the
claim itself offers as a failing input, `create_terminal_session` returns
a successful `Session` record, not a `SpawnError` — creation performs no
spawn at all, so there is no failing path. -/
theorem create_no_spawn_error_on_nonexistent_cwd :
    (create_terminal_session "sess-1" "/no/such/directory" []).1 =
      Except.ok { id := "sess-1", name := "Terminal",
                  working_directory := "/no/such/directory" } := rfl

/-- C1 (amended): for every working directory (valid or not),
`create_terminal_session` returns a `Session` record and stores a fresh
entry with no attached process, empty history, no group id and an empty
buffer; it has no failure path, because no backend process is spawned at
creation time (spawning happens later, in `execute_terminal_command`,
where `SpawnError` is surfaced). -/
theorem create_always_returns_session (session_id working_directory : String)
    (ts : Terminals) :
    (create_terminal_session session_id working_directory ts).1 =
      Except.ok { id := session_id, name := "Terminal",
                  working_directory := working_directory } ∧
    lookupSession (create_terminal_session session_id working_directory ts).2
        session_id =
      some { session := { id := session_id, name := "Terminal",
                          working_directory := working_directory }
             running_processes := []
             process_group_id := none
             current_process := none
             output_buffer := ""
             is_interactive := false } := by
  exact ⟨rfl, lookup_insertSession_self ts session_id _⟩

/-- C2 counterexample: `execute_terminal_command` contains a step that is
long-running I/O (the blocking `wait_with_output` on line 247) and runs
while the registry lock is held (taken on line 225, held to the end of
the function), contradicting the claim that no operation performs
long-running I/O under the registry lock. -/
theorem execute_blocks_under_registry_lock :
    execute_terminal_command_steps.any
      (fun s => s.holdsRegistryLock && s.longRunning) = true := rfl

/-- C2 (amended): `execute_terminal_command` and `kill_current_process`
hold the shared registry lock for their entire duration — every step of
both operations runs under it, including the spawn and the blocking wait
for command exit in the former and the 100 ms kill grace sleep in the
latter — so concurrent operations on different session ids serialize on
the one registry lock instead of proceeding independently. -/
theorem registry_lock_held_across_long_running_io :
    execute_terminal_command_steps.all (fun s => s.holdsRegistryLock) = true ∧
    kill_current_process_steps.all (fun s => s.holdsRegistryLock) = true ∧
    execute_terminal_command_steps.any
      (fun s => s.holdsRegistryLock && s.longRunning) = true ∧
    kill_current_process_steps.any
      (fun s => s.holdsRegistryLock && s.longRunning) = true :=
  ⟨rfl, rfl, rfl, rfl⟩

/-- C3 counterexample: on a session with an attached process and buffered
output "out", a failing `try_wait` status check makes `get_process_output`
return the `__PROCESS_ERROR__` sentinel — a fifth shape. It is not the
no-process sentinel, not the empty string, not the buffered text, and not
an exit-annotated result (every exit-annotated result for this state
starts with "out\n", which `__PROCESS_ERROR__` does not); the buffer is
also left undrained, unlike every text-returning shape the claim lists. -/
theorem poll_error_sentinel_is_a_fifth_shape :
    (get_process_output "s1" (Except.error "io") [("s1", sdRunning)]).1 =
      Except.ok "__PROCESS_ERROR__" ∧
    (get_process_output "s1" (Except.error "io") [("s1", sdRunning)]).2 =
      [("s1", sdRunning)] ∧
    "__PROCESS_ERROR__" ≠ "__NO_PROCESS__" ∧
    "__PROCESS_ERROR__" ≠ "" ∧
    "__PROCESS_ERROR__" ≠ sdRunning.output_buffer ∧
    ("out\n".data.isPrefixOf "__PROCESS_ERROR__".data) = false := by
  refine ⟨rfl, rfl, by decide, by decide, by decide, by decide⟩

/-- C3 (amended): for every known session id, `get_process_output`
returns exactly one of FIVE shapes: the `__NO_PROCESS__` sentinel when no
process is attached (never the empty string in that case), the empty
string when the process is running and the buffer is empty, the buffered
text when running and non-empty, the buffer text annotated with the
`__PROCESS_EXITED__` sentinel carrying the exit code when the process has
exited, or the `__PROCESS_ERROR__` sentinel when the status check itself
fails. Every poll that returns buffered text (running-with-data and exit
shapes) leaves the buffer empty (read-and-clear). -/
theorem poll_output_shapes (ts : Terminals) (session_id : String)
    (sd : TerminalSessionData) (tryWait : Except String (Option (Option Int)))
    (h : lookupSession ts session_id = some sd) :
    (sd.current_process = none →
       get_process_output session_id tryWait ts = (Except.ok "__NO_PROCESS__", ts)) ∧
    "__NO_PROCESS__" ≠ "" ∧
    (∀ proc, sd.current_process = some proc →
       (tryWait = Except.ok none → sd.output_buffer = "" →
          get_process_output session_id tryWait ts = (Except.ok "", ts)) ∧
       (tryWait = Except.ok none → sd.output_buffer ≠ "" →
          get_process_output session_id tryWait ts =
            (Except.ok sd.output_buffer,
             setSession ts session_id { sd with output_buffer := "" }) ∧
          lookupSession (get_process_output session_id tryWait ts).2 session_id =
            some { sd with output_buffer := "" }) ∧
       (∀ code, tryWait = Except.ok (some code) →
          (get_process_output session_id tryWait ts).1 =
            Except.ok (if sd.output_buffer ≠ "" then
                sd.output_buffer ++ "\n__PROCESS_EXITED__:" ++ fmtOptCode code
              else "__PROCESS_EXITED__:" ++ fmtOptCode code) ∧
          lookupSession (get_process_output session_id tryWait ts).2 session_id =
            some { sd with output_buffer := "" }) ∧
       (∀ e, tryWait = Except.error e →
          get_process_output session_id tryWait ts =
            (Except.ok "__PROCESS_ERROR__", ts))) := by
  refine ⟨?_, by decide, ?_⟩
  · intro hnone
    simp [get_process_output, h, hnone]
  · intro proc hproc
    refine ⟨?_, ?_, ?_, ?_⟩
    · intro hw hb
      simp [get_process_output, h, hproc, hw, hb]
    · intro hw hb
      have hres : get_process_output session_id tryWait ts =
          (Except.ok sd.output_buffer,
           setSession ts session_id { sd with output_buffer := "" }) := by
        simp [get_process_output, h, hproc, hw, hb]
      refine ⟨hres, ?_⟩
      rw [hres]
      exact lookup_setSession_self ts session_id sd _ h
    · intro code hw
      have hres : get_process_output session_id tryWait ts =
          (Except.ok (if sd.output_buffer ≠ "" then
              sd.output_buffer ++ "\n__PROCESS_EXITED__:" ++ fmtOptCode code
            else "__PROCESS_EXITED__:" ++ fmtOptCode code),
           setSession ts session_id { sd with output_buffer := "" }) := by
        by_cases hb : sd.output_buffer = ""
        · simp [get_process_output, h, hproc, hw, hb]
        · simp [get_process_output, h, hproc, hw, hb]
      refine ⟨by rw [hres], ?_⟩
      rw [hres]
      exact lookup_setSession_self ts session_id sd _ h
    · intro e hw
      simp [get_process_output, h, hproc, hw]

/-- Witness for `poll_output_shapes`: on the concrete running session
with buffered output "out", a still-running poll returns "out" and
drains the buffer. -/
theorem poll_output_shapes_witness :
    get_process_output "s1" (Except.ok none) [("s1", sdRunning)] =
      (Except.ok sdRunning.output_buffer,
       setSession [("s1", sdRunning)] "s1" { sdRunning with output_buffer := "" }) := by
  have h := poll_output_shapes [("s1", sdRunning)] "s1" sdRunning (Except.ok none)
    (by simp [lookupSession])
  exact ((h.2.2 sampleChild rfl).2.1 rfl (by decide)).1

/-- C10: when the `try_wait` status check of the attached process fails,
`get_process_output` returns the `__PROCESS_ERROR__` sentinel as a
successful result (not an error), and the registry — hence the session's
output buffer and attached `current_process` — is unchanged. -/
theorem poll_status_error_preserves_state (session_id e : String)
    (ts : Terminals) (sd : TerminalSessionData) (proc : ChildProcess)
    (h : lookupSession ts session_id = some sd)
    (hp : sd.current_process = some proc) :
    get_process_output session_id (Except.error e) ts =
      (Except.ok "__PROCESS_ERROR__", ts) := by
  simp [get_process_output, h, hp]

/-- Witness for `poll_status_error_preserves_state` on a concrete
running session. -/
theorem poll_status_error_preserves_state_witness :
    get_process_output "s1" (Except.error "io error") [("s1", sdRunning)] =
      (Except.ok "__PROCESS_ERROR__", [("s1", sdRunning)]) :=
  poll_status_error_preserves_state "s1" "io error" [("s1", sdRunning)] sdRunning
    sampleChild (by simp [lookupSession]) rfl

/-- C4: for a known session id, a one-shot `execute_terminal_command`
that spawns and waits successfully returns the captured stdout followed
by the captured stderr as one combined string; when stderr is empty the
result is exactly the stdout; for an unknown session id it fails with the
not-found error. -/
theorem execute_returns_stdout_then_stderr (session_id command : String)
    (spawnResult : Except String SpawnedChild) (ts : Terminals) :
    (∀ sd child out, lookupSession ts session_id = some sd →
       spawnResult = Except.ok child → child.waitResult = Except.ok out →
       (execute_terminal_command session_id command spawnResult ts).1 =
         Except.ok (out.stdout ++ out.stderr) ∧
       (out.stderr = "" →
          (execute_terminal_command session_id command spawnResult ts).1 =
            Except.ok out.stdout)) ∧
    (lookupSession ts session_id = none →
       (execute_terminal_command session_id command spawnResult ts).1 =
         Except.error "Terminal session not found") := by
  constructor
  · intro sd child out h hs hw
    constructor
    · by_cases hb : out.stderr = ""
      · simp [execute_terminal_command, h, hs, hw, hb]
      · simp [execute_terminal_command, h, hs, hw, hb]
    · intro hb
      simp [execute_terminal_command, h, hs, hw, hb]
  · intro h
    simp [execute_terminal_command, h]

/-- Witness for `execute_returns_stdout_then_stderr`: the spec scenario —
`run_command(id, "echo hello")` with empty stderr yields exactly
"hello\n". -/
theorem execute_returns_stdout_then_stderr_witness :
    (execute_terminal_command "s1" "echo hello" (Except.ok echoChild)
        [("s1", sdFresh)]).1 = Except.ok "hello\n" := by
  have h := execute_returns_stdout_then_stderr "s1" "echo hello"
      (Except.ok echoChild) [("s1", sdFresh)]
  exact (h.1 sdFresh echoChild
      { status_code := some 0, stdout := "hello\n", stderr := "" }
      (by simp [lookupSession]) rfl rfl).2 rfl

/-- C9: after a one-shot command completes, the element removed from the
session's `running_processes` history is the entry equal to the command's
EXIT CODE — the source binds `output.status.code()` as `pid` and runs
`retain(|&p| p != pid as u32)` — not the spawned process id; consequently
whenever the exit code differs from the pid, the pid remains recorded in
`running_processes` after the process has exited (and is signalled again
during close/cleanup). -/
theorem execute_retains_pid_filters_by_exit_code (session_id command : String)
    (ts : Terminals) (sd : TerminalSessionData) (child : SpawnedChild)
    (out : CmdOutput) (code : Int)
    (h : lookupSession ts session_id = some sd)
    (hw : child.waitResult = Except.ok out)
    (hc : out.status_code = some code) :
    lookupSession
        (execute_terminal_command session_id command (Except.ok child) ts).2
        session_id =
      some { sd with
               running_processes :=
                 (sd.running_processes ++ [child.pid]).filter
                   (fun p => decide (p ≠ u32_of_i32 code))
               process_group_id := some (i32_of_u32 child.pid) } ∧
    (child.pid ≠ u32_of_i32 code →
       child.pid ∈
         ((sd.running_processes ++ [child.pid]).filter
           (fun p => decide (p ≠ u32_of_i32 code)))) := by
  constructor
  · have hres : (execute_terminal_command session_id command (Except.ok child) ts).2 =
        setSession ts session_id
          { sd with
              running_processes :=
                (sd.running_processes ++ [child.pid]).filter
                  (fun p => decide (p ≠ u32_of_i32 code))
              process_group_id := some (i32_of_u32 child.pid) } := by
      by_cases hb : out.stderr = "" <;>
        simp [execute_terminal_command, h, hw, hc, hb]
    rw [hres]
    exact lookup_setSession_self ts session_id sd _ h
  · intro hne
    exact List.mem_filter.mpr
      ⟨List.mem_append_right _ (List.mem_singleton.mpr rfl), by simpa using hne⟩

/-- Witness for `execute_retains_pid_filters_by_exit_code`: pid 1234,
exit code 0 — after the command exits, 1234 is still recorded. -/
theorem execute_retains_pid_filters_by_exit_code_witness :
    lookupSession
        (execute_terminal_command "s1" "ls" (Except.ok echoChild)
          [("s1", sdFresh)]).2 "s1" =
      some { sdFresh with
               running_processes :=
                 (sdFresh.running_processes ++ [1234]).filter
                   (fun p => decide (p ≠ u32_of_i32 0))
               process_group_id := some (i32_of_u32 1234) } ∧
    (1234 : Nat) ∈
      ((sdFresh.running_processes ++ [1234]).filter
        (fun p => decide (p ≠ u32_of_i32 0))) := by
  have h := execute_retains_pid_filters_by_exit_code "s1" "ls" [("s1", sdFresh)]
      sdFresh echoChild { status_code := some 0, stdout := "hello\n", stderr := "" } 0
      (by simp [lookupSession]) rfl rfl
  exact ⟨h.1, h.2 (by decide)⟩

/-- C5: for every known session id, interrupt (`kill_current_process`)
succeeds and leaves the session with no attached current process, no
recorded process-group id and an empty output buffer, regardless of
whether a process was running; running interrupt twice in a row leaves
the same registry state as once (idempotence, with or without the id
present); it fails only with the not-found error on an unknown id. -/
theorem interrupt_clears_state_and_is_idempotent (session_id : String)
    (ts : Terminals) :
    (∀ sd, lookupSession ts session_id = some sd →
       (kill_current_process session_id ts).1 = Except.ok () ∧
       lookupSession (kill_current_process session_id ts).2.1 session_id =
         some (killCurrentState sd) ∧
       (killCurrentState sd).current_process = none ∧
       (killCurrentState sd).process_group_id = none ∧
       (killCurrentState sd).output_buffer = "") ∧
    (kill_current_process session_id
        (kill_current_process session_id ts).2.1).2.1 =
      (kill_current_process session_id ts).2.1 ∧
    (lookupSession ts session_id = none →
       (kill_current_process session_id ts).1 =
         Except.error "Terminal session not found") := by
  refine ⟨?_, ?_, ?_⟩
  · intro sd h
    refine ⟨?_, ?_, rfl, rfl, rfl⟩
    · simp [kill_current_process, h]
    · have hres : (kill_current_process session_id ts).2.1 =
          setSession ts session_id (killCurrentState sd) := by
        simp [kill_current_process, h]
      rw [hres]
      exact lookup_setSession_self ts session_id sd _ h
  · cases hl : lookupSession ts session_id with
    | none => simp [kill_current_process, hl]
    | some sd =>
      have hres : (kill_current_process session_id ts).2.1 =
          setSession ts session_id (killCurrentState sd) := by
        simp [kill_current_process, hl]
      have hl2 := lookup_setSession_self ts session_id sd (killCurrentState sd) hl
      have hres2 : (kill_current_process session_id
            (setSession ts session_id (killCurrentState sd))).2.1 =
          setSession (setSession ts session_id (killCurrentState sd)) session_id
            (killCurrentState (killCurrentState sd)) := by
        simp [kill_current_process, hl2]
      rw [hres, hres2]
      have hfix : killCurrentState (killCurrentState sd) = killCurrentState sd := rfl
      rw [hfix]
      exact setSession_setSession ts session_id (killCurrentState sd)
  · intro h
    simp [kill_current_process, h]

/-- Witness for `interrupt_clears_state_and_is_idempotent` on a concrete
session with a running child. -/
theorem interrupt_clears_state_and_is_idempotent_witness :
    (kill_current_process "s1" [("s1", sdRunning)]).1 = Except.ok () ∧
    lookupSession (kill_current_process "s1" [("s1", sdRunning)]).2.1 "s1" =
      some (killCurrentState sdRunning) := by
  have h := interrupt_clears_state_and_is_idempotent "s1" [("s1", sdRunning)]
  have h2 := h.1 sdRunning (by simp [lookupSession])
  exact ⟨h2.1, h2.2.1⟩

/-- C6: for a known session id with a current process attached whose
stdin is open, `send_input_to_process` writes `input ++ "\n"` to that
process's stdin; with no current process attached it fails with the
no-active-process error, and with an unknown session id it fails with
the not-found error. -/
theorem send_input_appends_newline (session_id input : String)
    (writeErr flushErr : Option String) (ts : Terminals) :
    (∀ sd proc, lookupSession ts session_id = some sd →
       sd.current_process = some proc → proc.stdin_open = true →
       writeErr = none → flushErr = none →
       send_input_to_process session_id input writeErr flushErr ts =
         (Except.ok (), some (input ++ "\n"))) ∧
    (∀ sd, lookupSession ts session_id = some sd → sd.current_process = none →
       send_input_to_process session_id input writeErr flushErr ts =
         (Except.error "No active process to send input to", none)) ∧
    (lookupSession ts session_id = none →
       send_input_to_process session_id input writeErr flushErr ts =
         (Except.error "Terminal session not found", none)) := by
  refine ⟨?_, ?_, ?_⟩
  · intro sd proc h hp hs hw hf
    simp [send_input_to_process, h, hp, hs, hw, hf]
  · intro sd h hp
    simp [send_input_to_process, h, hp]
  · intro h
    simp [send_input_to_process, h]

/-- Witness for `send_input_appends_newline` on a concrete session with
an attached child whose stdin is open. -/
theorem send_input_appends_newline_witness :
    send_input_to_process "s1" "ls" none none [("s1", sdRunning)] =
      (Except.ok (), some ("ls" ++ "\n")) := by
  have h := send_input_appends_newline "s1" "ls" none none [("s1", sdRunning)]
  exact h.1 sdRunning sampleChild (by simp [lookupSession]) rfl rfl rfl rfl

/-- C7: `close_terminal_session` always returns success, including when
the id was never in the registry (idempotent); afterwards the id is no
longer present; and when the id was present, the entry is removed from
the registry first — the `Event.removed` marker precedes every
termination event in the emitted trace. -/
theorem close_succeeds_removes_before_terminating (session_id : String)
    (ts : Terminals) :
    (close_terminal_session session_id ts).1 = Except.ok () ∧
    lookupSession (close_terminal_session session_id ts).2.1 session_id = none ∧
    (∀ sd, lookupSession ts session_id = some sd →
       (close_terminal_session session_id ts).2.1 = eraseSession ts session_id ∧
       (close_terminal_session session_id ts).2.2 =
         Event.removed session_id :: terminationEvents sd) := by
  have hstate : (close_terminal_session session_id ts).2.1 =
      eraseSession ts session_id := by
    cases hl : lookupSession ts session_id <;>
      simp [close_terminal_session, removeSession, hl]
  refine ⟨?_, ?_, ?_⟩
  · cases hl : lookupSession ts session_id <;>
      simp [close_terminal_session, removeSession, hl]
  · rw [hstate]
    exact lookup_eraseSession_self ts session_id
  · intro sd h
    exact ⟨hstate, by simp [close_terminal_session, removeSession, h]⟩

/-- Witness for `close_succeeds_removes_before_terminating` on a concrete
one-session registry. -/
theorem close_succeeds_removes_before_terminating_witness :
    (close_terminal_session "s1" [("s1", sdRunning)]).1 = Except.ok () ∧
    lookupSession (close_terminal_session "s1" [("s1", sdRunning)]).2.1 "s1" =
      none ∧
    (close_terminal_session "s1" [("s1", sdRunning)]).2.2 =
      Event.removed "s1" :: terminationEvents sdRunning := by
  have h := close_succeeds_removes_before_terminating "s1" [("s1", sdRunning)]
  exact ⟨h.1, h.2.1, (h.2.2 sdRunning (by simp [lookupSession])).2⟩

/-- Generic helper: the block contributed by a list member is a sublist
of the concatenation a `flatMap` produces. -/
theorem sublist_flatMap_of_mem {α β : Type} (l : List α) (f : α → List β)
    (a : α) (h : a ∈ l) : (f a).Sublist (l.flatMap f) := by
  induction l with
  | nil => cases h
  | cons x xs ih =>
    rcases List.mem_cons.mp h with h1 | h2
    · subst h1
      rw [List.flatMap_cons]
      exact List.sublist_append_left (f a) (xs.flatMap f)
    · simpa [List.flatMap_cons] using
        (ih h2).trans (List.sublist_append_right (f x) (xs.flatMap f))

/-- C8: `cleanup_all_terminals` leaves the registry empty and returns
success for every starting registry and every by-port lookup outcome (no
signal result is ever consulted, so individual termination failures
cannot abort the sweep); the emitted trace contains each drained
session's full termination sequence as a contiguous block, followed by
the by-port killer applied to exactly the fixed well-known development
ports. -/
theorem cleanup_all_empties_registry_and_sweeps_ports (ts : Terminals)
    (lsof : Nat → List Int) :
    (cleanup_all_terminals ts lsof).1 = Except.ok () ∧
    (cleanup_all_terminals ts lsof).2.1 = [] ∧
    (cleanup_all_terminals ts lsof).2.2 =
      ts.flatMap (fun entry => terminationEvents entry.2) ++
        common_ports.flatMap (fun port =>
          Event.killPort port :: (kill_port_process port (lsof port)).2) ∧
    common_ports = [1420, 1421, 1422, 1423, 3000, 5173, 8080] ∧
    (∀ entry, entry ∈ ts →
       (terminationEvents entry.2).Sublist (cleanup_all_terminals ts lsof).2.2) ∧
    (∀ port, port ∈ common_ports →
       Event.killPort port ∈ (cleanup_all_terminals ts lsof).2.2) := by
  refine ⟨rfl, rfl, rfl, rfl, ?_, ?_⟩
  · intro entry h
    have h1 := sublist_flatMap_of_mem ts (fun e => terminationEvents e.2) entry h
    exact h1.trans (List.sublist_append_left _ _)
  · intro port h
    have hmem : Event.killPort port ∈ common_ports.flatMap (fun p =>
        Event.killPort p :: (kill_port_process p (lsof p)).2) :=
      List.mem_flatMap.mpr ⟨port, h, List.mem_cons_self _ _⟩
    exact List.mem_append_right _ hmem

/-- Witness for `cleanup_all_empties_registry_and_sweeps_ports` on a
concrete one-session registry with a by-port lookup that finds pid
4321 on every port. -/
theorem cleanup_all_empties_registry_and_sweeps_ports_witness :
    (cleanup_all_terminals [("s1", sdRunning)] (fun _ => [4321])).2.1 = [] ∧
    (terminationEvents sdRunning).Sublist
      (cleanup_all_terminals [("s1", sdRunning)] (fun _ => [4321])).2.2 ∧
    Event.killPort 3000 ∈
      (cleanup_all_terminals [("s1", sdRunning)] (fun _ => [4321])).2.2 := by
  have h := cleanup_all_empties_registry_and_sweeps_ports [("s1", sdRunning)]
      (fun _ => [4321])
  exact ⟨h.2.1, h.2.2.2.2.1 ("s1", sdRunning) (by simp),
    h.2.2.2.2.2 3000 (by decide)⟩
